import Mathlib

/-!
Verification development for the MCP server in `mcp.py` (class `MCPServer`).

The server is shallowly embedded: JSON values are an inductive type, the
per-connection mutable state (`self.initialized`, `self.workspace_root`) is an
explicit record, and every external effect performed inside a tool body
(file system, subprocess, `eval`, clock) is supplied through an `Effects`
record of oracles, one per `try:` block of the source.  The pure control
flow of `handle_request` and of every handler is translated line by line.
POSIX path behaviour is modelled (the `os.name` equal to `nt` branch is not taken).
-/

namespace MCP

/-- JSON values as produced by `json.loads`; numbers are modelled as integers
(no claim involves floating point). -/
inductive Json where
  | null : Json
  | bool : Bool → Json
  | num : Int → Json
  | str : String → Json
  | arr : List Json → Json
  | obj : List (String × Json) → Json
  deriving Repr

/-- Dictionary lookup as on a Python dict built by `json.loads`: with
duplicate keys the last binding wins. -/
def jget : List (String × Json) → String → Option Json
  | [], _ => none
  | (k, v) :: rest, key =>
    match jget rest key with
    | some r => some r
    | none => if k = key then some v else none

/-- `Json.str` projection (`some` exactly on strings). -/
def asStr : Json → Option String
  | .str s => some s
  | _ => none

/-- Python truthiness (`if x:`) of a JSON-decoded value. -/
def pyTruthy : Json → Bool
  | .null => false
  | .bool b => b
  | .num n => n != 0
  | .str s => !s.isEmpty
  | .arr l => !l.isEmpty
  | .obj l => !l.isEmpty

mutual

/-- Python `repr` of a JSON-decoded value, as interpolated by `str` for
containers.  String repr is modelled for strings without quote or escape
characters (the only ones the claims exercise). -/
def pyRepr : Json → String
  | .null => "None"
  | .bool true => "True"
  | .bool false => "False"
  | .num n => toString n
  | .str s => "\x27" ++ s ++ "\x27"
  | .arr l => "[" ++ pyReprList l ++ "]"
  | .obj l => "\x7b" ++ pyReprFields l ++ "\x7d"

def pyReprList : List Json → String
  | [] => ""
  | [x] => pyRepr x
  | x :: y :: rest => pyRepr x ++ ", " ++ pyReprList (y :: rest)

def pyReprFields : List (String × Json) → String
  | [] => ""
  | [(k, v)] => "\x27" ++ k ++ "\x27: " ++ pyRepr v
  | (k, v) :: y :: rest => "\x27" ++ k ++ "\x27: " ++ pyRepr v ++ ", " ++ pyReprFields (y :: rest)

end

/-- Python `str` of a JSON-decoded value, as applied by an f-string. -/
def pyStr : Json → String
  | .null => "None"
  | .bool true => "True"
  | .bool false => "False"
  | .num n => toString n
  | .str s => s
  | .arr l => pyRepr (.arr l)
  | .obj l => pyRepr (.obj l)

/-- `str` applied to a `dict.get` result (`None` when the key is absent). -/
def pyStrOpt : Option Json → String
  | none => "None"
  | some v => pyStr v

/-- Two hexadecimal digits of a value below 256. -/
def hex2 (n : Nat) : String :=
  let dig := fun (k : Nat) => String.singleton (Nat.digitChar k)
  dig ((n / 16) % 16) ++ dig (n % 16)

/-- `json.dumps` escaping of one character.  The `ensure_ascii` transliteration
of non-ASCII characters is not modelled (no claim reaches it). -/
def jsonEscChar (c : Char) : String :=
  if c = '"' then "\\\""
  else if c = '\\' then "\\\\"
  else if c = '\n' then "\\n"
  else if c = '\r' then "\\r"
  else if c = '\t' then "\\t"
  else if c.toNat < 32 then "\\u00" ++ hex2 c.toNat
  else String.singleton c

def jsonEscape (s : String) : String :=
  String.join (s.toList.map jsonEscChar)

/-- Repeated two-space indent used by `json.dumps(..., indent=2)`. -/
def ind2 (lvl : Nat) : String :=
  String.join (List.replicate lvl "  ")

mutual

/-- `json.dumps(x, indent=2)` starting at nesting level `lvl`. -/
def pyDumps (lvl : Nat) (j : Json) : String :=
  match j with
  | .null => "null"
  | .bool true => "true"
  | .bool false => "false"
  | .num n => toString n
  | .str s => "\"" ++ jsonEscape s ++ "\""
  | .arr [] => "[]"
  | .arr (x :: xs) =>
    "[\n" ++ ind2 (lvl + 1) ++ pyDumpsItems (lvl + 1) x xs ++ "\n" ++ ind2 lvl ++ "]"
  | .obj [] => "\x7b\x7d"
  | .obj (f :: fs) =>
    "\x7b\n" ++ ind2 (lvl + 1) ++ pyDumpsFields (lvl + 1) f fs ++ "\n" ++ ind2 lvl ++ "\x7d"
termination_by sizeOf j
decreasing_by all_goals (simp_wf; try omega)

def pyDumpsItems (lvl : Nat) (x : Json) (xs : List Json) : String :=
  match xs with
  | [] => pyDumps lvl x
  | y :: rest => pyDumps lvl x ++ ",\n" ++ ind2 lvl ++ pyDumpsItems lvl y rest
termination_by sizeOf x + sizeOf xs
decreasing_by all_goals (simp_wf; try omega)

def pyDumpsFields (lvl : Nat) (f : String × Json) (fs : List (String × Json)) : String :=
  match f with
  | (k, v) =>
    match fs with
    | [] => "\"" ++ jsonEscape k ++ "\": " ++ pyDumps lvl v
    | g :: rest =>
      "\"" ++ jsonEscape k ++ "\": " ++ pyDumps lvl v ++ ",\n" ++ ind2 lvl ++ pyDumpsFields lvl g rest
termination_by sizeOf f + sizeOf fs
decreasing_by all_goals (simp_wf; try omega)

end

/-! ## POSIX path model (`os.path` with `os.name` not equal to `nt`) -/

/-- `posixpath.isabs`. -/
def isAbs (p : String) : Bool := p.startsWith "/"

/-- `posixpath.join` of two components. -/
def pjoin (a b : String) : String :=
  if isAbs b then b
  else if a = "" || a.endsWith "/" then a ++ b
  else a ++ "/" ++ b

/-- Component processing of `posixpath.normpath`: drop empty and `.`
components, resolve `..` against the accumulated stack. -/
def normSteps (abs : Bool) : List String → List String → List String
  | acc, [] => acc.reverse
  | acc, c :: rest =>
    if c = "" ∨ c = "." then normSteps abs acc rest
    else if c = ".." then
      match acc with
      | [] => if abs then normSteps abs [] rest else normSteps abs [".."] rest
      | h :: t =>
        if h = ".." then normSteps abs (".." :: h :: t) rest
        else normSteps abs t rest
    else normSteps abs (c :: acc) rest

/-- `posixpath.normpath`. -/
def normpath (p : String) : String :=
  if p = "" then "."
  else
    let abs := isAbs p
    let dbl := p.startsWith "//" && !(p.startsWith "///")
    let comps := normSteps abs [] (p.splitOn "/")
    let pre := if abs then (if dbl then "//" else "/") else ""
    let out := pre ++ String.intercalate "/" comps
    if out = "" then "." else out

/-- `MCPServer._resolve_path`. -/
def resolvePath (workspaceRoot path : String) : String :=
  if isAbs path then path
  else normpath (pjoin workspaceRoot path)

/-- `os.path.splitext(path)[1]`: the extension of the basename, ignoring its
leading dots. -/
def splitextExt (p : String) : String :=
  let base := (p.splitOn "/").getLastD ""
  let rest := base.toList.dropWhile (· = '.')
  let tail := rest.reverse.takeWhile (· ≠ '.')
  if tail.length = rest.length then ""
  else "." ++ String.mk tail.reverse

/-! ## Server state, responses, effect oracles -/

/-- The single supported protocol version (`MCP_VERSION`). -/
def MCP_VERSION : String := "2024-11-05"

/-- The per-connection mutable attributes of `MCPServer`. -/
structure ServerState where
  initialized : Bool
  workspaceRoot : String
  deriving Repr

/-- `MCPServer.__init__` (the workspace root is `os.getcwd()`). -/
def initialState (cwd : String) : ServerState :=
  { initialized := false, workspaceRoot := cwd }

/-- Observable outcome of `handle_request` for one frame.  `empty` is the
empty string (nothing is written back); `crash` is an exception escaping
`handle_request`, which makes `handle_client` close the connection. -/
inductive Response where
  | empty : Response
  | result (id : Json) (body : Json) : Response
  | error (id : Json) (code : Int) (message : String) : Response
  | crash : Response
  deriving Repr

/-- `MCPServer._create_response`. -/
def createResponse (rid : Option Json) (body : Json) : Response :=
  match rid with
  | none => .empty
  | some i => .result i body

/-- `MCPServer._create_error_response`. -/
def createErrorResponse (rid : Option Json) (code : Int) (message : String) : Response :=
  match rid with
  | none => .empty
  | some i => .error i code message

/-- The error code, if the response is an RPC error object. -/
def errCode : Response → Option Int
  | .error _ c _ => some c
  | _ => none

/-- Whether handling the frame closes the connection. -/
def closesConnection : Response → Bool
  | .crash => true
  | _ => false

/-- `subprocess.run` outcomes distinguished by `_tool_run_command`. -/
inductive RunExc where
  | timeout : RunExc
  | exc (msg : String) : RunExc

/-- One entry of `os.listdir` together with the `os.path.isdir` /
`os.path.getsize` facts queried for it. -/
structure DirEntry where
  name : String
  isDir : Bool
  size : Int

/-- The `os.stat` / `os.path` facts queried by `_tool_file_info`. -/
structure StatInfo where
  size : Int
  modifiedIso : String
  createdIso : String
  isFile : Bool
  isDir : Bool

/-- External effects, one oracle per `try:` block of a tool body.  `.error e`
is an exception with `str(e) = e` raised inside the block. -/
structure Effects where
  /-- `open(path).read()` in `_tool_read_file`. -/
  readFileOp : String → Except String String
  /-- `os.makedirs` + `open(path, mode).write(content)` in `_tool_write_file`. -/
  writeOp : String → Json → Bool → Except String Unit
  /-- `os.path.exists` / `os.listdir` / per-entry stats in `_tool_list_files`;
  `none` means the path does not exist. -/
  listDirOp : String → Except String (Option (List DirEntry))
  /-- `os.makedirs` in `_tool_create_directory`. -/
  mkdirOp : String → Except String Unit
  /-- `os.path.exists` / `shutil.rmtree` / `os.remove` in `_tool_delete_path`;
  `none` = path absent, `some true` = directory removed, `some false` = file removed. -/
  deleteOp : String → Except String (Option Bool)
  /-- `subprocess.run(command, shell=True, cwd=wd, timeout=30)` in
  `_tool_run_command`: `(stdout, stderr, returncode)`. -/
  runCmdOp : Json → String → Except RunExc (String × String × Int)
  /-- Flattened `os.walk` iteration in `_tool_search_files`: `(root, filename)`
  pairs in walk order. -/
  walkOp : String → Except String (List (String × String))
  /-- `os.path.exists` / `os.stat` / `os.path.isfile` / `os.path.isdir` in
  `_tool_file_info`. -/
  statOp : String → Except String (Option StatInfo)
  /-- `eval(expression, {"__builtins__": None}, math.__dict__)` in
  `_tool_calculator`: `str` of the evaluated result on success. -/
  evalOp : Json → Except String String
  /-- `subprocess.run(command, shell=True, cwd=root)` in
  `handle_terminal_execute`: `(stdout, stderr, returncode)`. -/
  terminalRun : Json → String → Except String (String × String × Int)
  /-- `datetime.now().isoformat()`. -/
  nowIso : String

/-! ## Capability registry (`_setup_tools`, `_setup_prompts`, `_setup_resources`) -/

/-- A `{"content": [{"type": "text", "text": t}]}` tool result. -/
def textContent (t : String) : Json :=
  .obj [("content", .arr [.obj [("type", .str "text"), ("text", .str t)]])]

/-- One tool descriptor of `_setup_tools`. -/
def toolDesc (name desc : String) (props : List (String × Json))
    (req : Option (List String)) : Json :=
  .obj [("name", .str name), ("description", .str desc),
        ("inputSchema", .obj
          (([("type", Json.str "object"), ("properties", Json.obj props)]) ++
            (match req with
             | none => []
             | some rs => [("required", Json.arr (rs.map Json.str))])))]

/-- A `{"type": "string", "description": d}` schema property. -/
def strProp (d : String) : Json :=
  .obj [("type", .str "string"), ("description", .str d)]

/-- `MCPServer._setup_tools`: the tool registry in registration order. -/
def setupTools : List (String × Json) :=
  [("read_file", toolDesc "read_file" "Lee el contenido de un archivo"
      [("path", strProp "Ruta del archivo")] (some ["path"])),
   ("write_file", toolDesc "write_file" "Escribe contenido en un archivo"
      [("path", strProp "Ruta del archivo"),
       ("content", strProp "Contenido a escribir"),
       ("append", .obj [("type", .str "boolean"),
                        ("description", .str "Añadir al final en lugar de sobrescribir")])]
      (some ["path", "content"])),
   ("list_files", toolDesc "list_files" "Lista archivos y directorios en una ruta"
      [("path", strProp "Ruta a listar (por defecto: directorio actual)")] (some [])),
   ("create_directory", toolDesc "create_directory" "Crea un directorio"
      [("path", strProp "Ruta del directorio a crear")] (some ["path"])),
   ("delete_path", toolDesc "delete_path" "Elimina un archivo o directorio"
      [("path", strProp "Ruta a eliminar")] (some ["path"])),
   ("run_command", toolDesc "run_command" "Ejecuta un comando en la terminal"
      [("command", strProp "Comando a ejecutar"),
       ("cwd", strProp "Directorio de trabajo")] (some ["command"])),
   ("search_files", toolDesc "search_files" "Busca archivos por nombre o patrón"
      [("pattern", strProp "Patrón de búsqueda (ej: *.py)"),
       ("path", strProp "Ruta donde buscar (por defecto: directorio actual)")]
      (some ["pattern"])),
   ("file_info", toolDesc "file_info" "Obtiene información detallada de un archivo"
      [("path", strProp "Ruta del archivo")] (some ["path"])),
   ("calculator", toolDesc "calculator" "Calculadora científica"
      [("expression", .obj [("type", .str "string")])] (some ["expression"])),
   ("terminal_execute", toolDesc "terminal_execute" "Ejecuta un comando en la terminal"
      [("command", strProp "Comando a ejecutar")] (some ["command"])),
   ("datetime", toolDesc "datetime" "Obtiene la fecha y hora actual" [] none)]

/-- `MCPServer._setup_prompts`: the prompt registry in registration order. -/
def setupPrompts : List (String × Json) :=
  let arg := fun (n d : String) (r : Bool) =>
    Json.obj [("name", .str n), ("description", .str d), ("required", .bool r)]
  [("code_review", .obj
      [("name", .str "code_review"),
       ("description", .str "Revisión de código con enfoque en calidad"),
       ("arguments", .arr
         [arg "language" "Lenguaje de programación" true,
          arg "code" "Código a revisar" true])]),
   ("code_explanation", .obj
      [("name", .str "code_explanation"),
       ("description", .str "Explica el funcionamiento de un código"),
       ("arguments", .arr
         [arg "language" "Lenguaje de programación" true,
          arg "code" "Código a explicar" true])]),
   ("create_test", .obj
      [("name", .str "create_test"),
       ("description", .str "Genera tests para un código dado"),
       ("arguments", .arr
         [arg "language" "Lenguaje de programación" true,
          arg "code" "Código para el cual crear tests" true,
          arg "framework" "Framework de testing a usar" false])])]

/-- `self.capabilities` as built in `MCPServer.__init__`. -/
def capabilitiesJson : Json :=
  .obj [("tools", .obj setupTools), ("prompts", .obj setupPrompts),
        ("resources", .obj [])]

/-! ## Tool bodies (`_tool_*`) -/

/-- `d.get(k, default)` on a Python value: raises `AttributeError` when `d` is
not a dict (the modelled message abbreviates the CPython type-specific text). -/
def pyGetD (j : Json) (k : String) (d : Json) : Except String Json :=
  match j with
  | .obj fs => .ok ((jget fs k).getD d)
  | _ => .error "AttributeError"

/-- Coercion of a value used where Python requires `str` (`os.path` calls);
raises `TypeError` otherwise (message abbreviated). -/
def asStrE (j : Json) : Except String String :=
  match j with
  | .str s => .ok s
  | _ => .error "TypeError"

/-- `MCPServer._tool_read_file`. -/
def toolReadFile (fx : Effects) (st : ServerState) (arguments : Json) :
    Except String Json := do
  let pathV ← pyGetD arguments "path" (.str "")
  let pathS ← asStrE pathV
  let path := resolvePath st.workspaceRoot pathS
  match fx.readFileOp path with
  | .ok content =>
    return textContent ("Contenido de " ++ path ++ ":\n\n" ++ content)
  | .error e =>
    return textContent ("Error leyendo archivo " ++ path ++ ": " ++ e)

/-- `MCPServer._tool_write_file`. -/
def toolWriteFile (fx : Effects) (st : ServerState) (arguments : Json) :
    Except String Json := do
  let pathV ← pyGetD arguments "path" (.str "")
  let pathS ← asStrE pathV
  let path := resolvePath st.workspaceRoot pathS
  let content ← pyGetD arguments "content" (.str "")
  let appendV ← pyGetD arguments "append" (.bool false)
  let app := pyTruthy appendV
  match fx.writeOp path content app with
  | .ok _ =>
    let action := if app then "Añadido a" else "Escrito en"
    return textContent (action ++ " archivo: " ++ path)
  | .error e =>
    return textContent ("Error escribiendo archivo " ++ path ++ ": " ++ e)

/-- Sort key of `_tool_list_files`: `(type != "directory", name.lower())`. -/
def dirEntryLe (a b : DirEntry) : Bool :=
  if a.isDir ≠ b.isDir then a.isDir
  else decide (a.name.toLower ≤ b.name.toLower)

/-- One line of the `_tool_list_files` listing. -/
def dirEntryLine (e : DirEntry) : String :=
  if e.isDir then "[DIR]  " ++ e.name
  else "[FILE] " ++ e.name ++ " (" ++ toString (if e.isDir then (0 : Int) else e.size) ++ " bytes)"

/-- `MCPServer._tool_list_files`. -/
def toolListFiles (fx : Effects) (st : ServerState) (arguments : Json) :
    Except String Json := do
  let pathV ← pyGetD arguments "path" (.str "")
  let target ←
    if pyTruthy pathV then do
      let s ← asStrE pathV
      pure (resolvePath st.workspaceRoot s)
    else pure st.workspaceRoot
  match fx.listDirOp target with
  | .ok none =>
    return textContent ("La ruta no existe: " ++ target)
  | .ok (some entries) =>
    let sorted := entries.mergeSort dirEntryLe
    let itemsText := String.intercalate "\n" (sorted.map dirEntryLine)
    return textContent ("Contenido de " ++ target ++ ":\n\n" ++ itemsText)
  | .error e =>
    return textContent ("Error listando directorio " ++ target ++ ": " ++ e)

/-- `MCPServer._tool_create_directory`. -/
def toolCreateDirectory (fx : Effects) (st : ServerState) (arguments : Json) :
    Except String Json := do
  let pathV ← pyGetD arguments "path" (.str "")
  let pathS ← asStrE pathV
  let path := resolvePath st.workspaceRoot pathS
  match fx.mkdirOp path with
  | .ok _ => return textContent ("Directorio creado: " ++ path)
  | .error e => return textContent ("Error creando directorio " ++ path ++ ": " ++ e)

/-- `MCPServer._tool_delete_path`. -/
def toolDeletePath (fx : Effects) (st : ServerState) (arguments : Json) :
    Except String Json := do
  let pathV ← pyGetD arguments "path" (.str "")
  let pathS ← asStrE pathV
  let path := resolvePath st.workspaceRoot pathS
  match fx.deleteOp path with
  | .ok none => return textContent ("La ruta no existe: " ++ path)
  | .ok (some true) => return textContent ("Directorio eliminado: " ++ path)
  | .ok (some false) => return textContent ("Archivo eliminado: " ++ path)
  | .error e => return textContent ("Error eliminando " ++ path ++ ": " ++ e)

/-- `MCPServer._tool_run_command`. -/
def toolRunCommand (fx : Effects) (st : ServerState) (arguments : Json) :
    Except String Json := do
  let command ← pyGetD arguments "command" (.str "")
  let cwdV ← pyGetD arguments "cwd" (.str "")
  let workingDir ←
    if pyTruthy cwdV then do
      let s ← asStrE cwdV
      pure (resolvePath st.workspaceRoot s)
    else pure st.workspaceRoot
  match fx.runCmdOp command workingDir with
  | .ok (stdout, stderr, rc) =>
    let output : Json := .obj [("returncode", .num rc), ("stdout", .str stdout),
                               ("stderr", .str stderr)]
    return textContent ("Comando ejecutado en " ++ workingDir ++ ":\n" ++ pyStr command ++
      "\n\nResultado:\n" ++ pyDumps 0 output)
  | .error .timeout =>
    return textContent ("El comando tardó demasiado en ejecutarse: " ++ pyStr command)
  | .error (.exc e) =>
    return textContent ("Error ejecutando comando: " ++ e)

/-- `pattern in file` on strings. -/
def strIn (needle hay : String) : Bool :=
  decide (List.IsInfix needle.toList hay.toList)

/-- `MCPServer._tool_search_files`.  A non-string pattern raises `TypeError`
inside the `try:` (message abbreviated). -/
def toolSearchFiles (fx : Effects) (st : ServerState) (arguments : Json) :
    Except String Json := do
  let patternV ← pyGetD arguments "pattern" (.str "")
  let pathV ← pyGetD arguments "path" (.str "")
  let searchPath ←
    if pyTruthy pathV then do
      let s ← asStrE pathV
      pure (resolvePath st.workspaceRoot s)
    else pure st.workspaceRoot
  match fx.walkOp searchPath with
  | .ok pairs =>
    match patternV with
    | .str pattern =>
      let found := (pairs.filter fun rf =>
        strIn pattern rf.2 || pattern = "*" || pattern = "*.*").map
          fun rf => pjoin rf.1 rf.2
      if found.isEmpty then
        return textContent ("No se encontraron archivos con el patrón \x27" ++ pattern ++
          "\x27 en " ++ searchPath)
      else
        return textContent ("Archivos encontrados con patrón \x27" ++ pattern ++
          "\x27 en " ++ searchPath ++ ":\n\n" ++ String.intercalate "\n" found)
    | _ => return textContent "Error buscando archivos: TypeError"
  | .error e =>
    return textContent ("Error buscando archivos: " ++ e)

/-- `MCPServer._tool_file_info`. -/
def toolFileInfo (fx : Effects) (st : ServerState) (arguments : Json) :
    Except String Json := do
  let pathV ← pyGetD arguments "path" (.str "")
  let pathS ← asStrE pathV
  let path := resolvePath st.workspaceRoot pathS
  match fx.statOp path with
  | .ok none => return textContent ("La ruta no existe: " ++ path)
  | .ok (some si) =>
    let info : Json := .obj
      [("path", .str path), ("size", .num si.size),
       ("modified", .str si.modifiedIso), ("created", .str si.createdIso),
       ("is_file", .bool si.isFile), ("is_dir", .bool si.isDir),
       ("extension", .str (if si.isFile then splitextExt path else ""))]
    return textContent ("Información del archivo:\n" ++ pyDumps 0 info)
  | .error e =>
    return textContent ("Error obteniendo información del archivo: " ++ e)

/-- `MCPServer._tool_calculator`.  `arguments["expression"]` on a missing key
raises `KeyError`, caught by the handler directly inside its own `try:` block;
the `str` of that `KeyError` is the key name wrapped in single quotes;
subscripting a non-dict raises `TypeError` (abbreviated). -/
def toolCalculator (fx : Effects) (arguments : Json) : Except String Json :=
  .ok (match arguments with
    | .obj fs =>
      match jget fs "expression" with
      | none => textContent "Error de cálculo: \x27expression\x27"
      | some v =>
        match fx.evalOp v with
        | .ok r => textContent ("Resultado: " ++ r)
        | .error e => textContent ("Error de cálculo: " ++ e)
    | _ => textContent "Error de cálculo: TypeError")

/-- `MCPServer._tool_datetime`. -/
def toolDatetime (fx : Effects) : Except String Json :=
  .ok (textContent ("Fecha y hora actual: " ++ fx.nowIso))

/-! ## Request handlers -/

/-- `MCPServer.handle_initialize`.  `raise Exception(...)` is modelled as
`.error` carrying the `str` of the exception; the Windows-only `os.name` branch is not taken
(POSIX model). -/
def handleInitialize (st : ServerState) (params : Json) :
    Except String (ServerState × Json) := do
  match params with
  | .obj fs =>
    match jget fs "protocolVersion" with
    | some (.str v) =>
      if v ≠ MCP_VERSION then
        .error ("Versión de protocolo no soportada: " ++ v)
      else do
        let wsf := (jget fs "workspaceFolders").getD (.arr [])
        let st' ←
          if pyTruthy wsf then
            match wsf with
            | .arr (first :: _) =>
              match first with
              | .obj f1 =>
                match (jget f1 "uri").getD (.str "") with
                | .str u =>
                  pure { st with workspaceRoot := u.replace "file://" "" }
                | _ => .error "AttributeError"
              | _ => .error "AttributeError"
            | _ => .error "TypeError"
          else pure st
        return (st', .obj
          [("protocolVersion", .str MCP_VERSION),
           ("capabilities", capabilitiesJson),
           ("serverInfo", .obj [("name", .str "VS Code MCP Server"),
                                ("version", .str "1.0.0")]),
           ("instructions", .str "Servidor MCP para manipulación de archivos y terminal en VS Code")])
    | pv => .error ("Versión de protocolo no soportada: " ++ pyStrOpt pv)
  | _ => .error "AttributeError"

/-- `MCPServer.handle_tools_list`. -/
def toolsListResult : Json :=
  .obj [("tools", .arr (setupTools.map Prod.snd))]

/-- `MCPServer.handle_prompts_list`. -/
def promptsListResult : Json :=
  .obj [("prompts", .arr (setupPrompts.map Prod.snd))]

/-- `MCPServer.handle_tools_call`: name dispatch, with the not-found fallback. -/
def handleToolsCall (fx : Effects) (st : ServerState) (params : Json) :
    Except String Json :=
  match params with
  | .obj fs =>
    let toolName := jget fs "name"
    let arguments := (jget fs "arguments").getD (.obj [])
    let tn := toolName.bind asStr
    if tn = some "read_file" then toolReadFile fx st arguments
    else if tn = some "write_file" then toolWriteFile fx st arguments
    else if tn = some "list_files" then toolListFiles fx st arguments
    else if tn = some "create_directory" then toolCreateDirectory fx st arguments
    else if tn = some "delete_path" then toolDeletePath fx st arguments
    else if tn = some "run_command" then toolRunCommand fx st arguments
    else if tn = some "search_files" then toolSearchFiles fx st arguments
    else if tn = some "file_info" then toolFileInfo fx st arguments
    else if tn = some "calculator" then toolCalculator fx arguments
    else if tn = some "datetime" then toolDatetime fx
    else .ok (textContent ("Herramienta no encontrada: " ++ pyStrOpt toolName))
  | _ => .error "AttributeError"

/-- `MCPServer.handle_prompts_get`. -/
def handlePromptsGet (params : Json) : Except String Json :=
  match params with
  | .obj fs =>
    let nameJ := jget fs "name"
    let argsJ := (jget fs "arguments").getD (.obj [])
    let pn := nameJ.bind asStr
    let promptResult := fun (desc text : String) =>
      Json.obj [("description", .str desc),
                ("messages", .arr
                  [.obj [("role", .str "user"),
                         ("content", .obj [("type", .str "text"),
                                           ("text", .str text)])]])]
    if pn = some "code_review" then do
      let lang ← pyGetD argsJ "language" (.str "")
      let code ← pyGetD argsJ "code" (.str "")
      return promptResult "Revisión de código con enfoque en calidad"
        ("Revisa este código " ++ pyStr lang ++ ":\n\n" ++ pyStr code ++
         "\n\nProporciona comentarios sobre calidad, posibles errores y optimizaciones.")
    else if pn = some "code_explanation" then do
      let lang ← pyGetD argsJ "language" (.str "")
      let code ← pyGetD argsJ "code" (.str "")
      return promptResult "Explica el funcionamiento de un código"
        ("Explica cómo funciona este código " ++ pyStr lang ++ ":\n\n" ++ pyStr code ++
         "\n\nDescribe el propósito, las funciones principales y cualquier detalle importante.")
    else if pn = some "create_test" then do
      let fw ← pyGetD argsJ "framework" (.str "estándar")
      let lang ← pyGetD argsJ "language" (.str "")
      let code ← pyGetD argsJ "code" (.str "")
      return promptResult "Genera tests para un código dado"
        ("Genera tests usando " ++ pyStr fw ++ " para este código " ++ pyStr lang ++
         ":\n\n" ++ pyStr code ++ "\n\nIncluye casos de prueba para diferentes escenarios.")
    else
      .ok (.obj [("description", .str "Prompt no encontrado"),
                 ("messages", .arr
                   [.obj [("role", .str "user"),
                          ("content", .obj [("type", .str "text"),
                                            ("text", .str ("El prompt \x27" ++ pyStrOpt nameJ ++
                                              "\x27 no existe."))])]])])
  | _ => .error "AttributeError"

/-- `MCPServer.handle_terminal_execute`. -/
def handleTerminalExecute (fx : Effects) (st : ServerState) (params : Json) :
    Except String Json :=
  match params with
  | .obj fs =>
    let command := jget fs "command"
    if pyTruthy ((command).getD .null) = false then
      .ok (textContent "Comando no proporcionado")
    else
      match fx.terminalRun ((command).getD .null) st.workspaceRoot with
      | .ok (stdout, stderr, rc) =>
        .ok (textContent ("Comando ejecutado:\n" ++ pyStrOpt command ++ "\n\nSalida:\n" ++
          stdout ++ "\nErrores:\n" ++ stderr ++ "\nCódigo de retorno: " ++ toString rc))
      | .error e =>
        .ok (textContent ("Error al ejecutar el comando: " ++ e))
  | _ => .error "AttributeError"

/-- `MCPServer.handle_request` on a decoded frame.  `none` is a
`json.JSONDecodeError` from `json.loads`; a decoded non-dict value makes
`request.get` raise before `request_id` is bound, so the `except` handler
itself raises (`UnboundLocalError`) and the exception escapes (`crash`). -/
def handleRequest (fx : Effects) (st : ServerState) (input : Option Json) :
    ServerState × Response :=
  match input with
  | none => (st, createErrorResponse none (-32700) "Error de análisis JSON")
  | some (.obj fields) =>
    let method := (jget fields "method").getD (.str "")
    let params := (jget fields "params").getD (.obj [])
    let rid : Option Json :=
      match jget fields "id" with
      | none => none
      | some .null => none
      | some v => some v
    let m := asStr method
    if m = some "initialize" then
      match handleInitialize st params with
      | .ok (st', result) => (st', createResponse rid result)
      | .error e => (st, createErrorResponse rid (-32603) ("Error interno: " ++ e))
    else if st.initialized = false ∧ m ≠ some "initialized" then
      (st, createErrorResponse rid (-32002) "Servidor no inicializado")
    else if m = some "initialized" then
      ({ st with initialized := true }, createResponse rid .null)
    else if m = some "tools/list" then
      (st, createResponse rid toolsListResult)
    else if m = some "tools/call" then
      match handleToolsCall fx st params with
      | .ok r => (st, createResponse rid r)
      | .error e => (st, createErrorResponse rid (-32603) ("Error interno: " ++ e))
    else if m = some "prompts/list" then
      (st, createResponse rid promptsListResult)
    else if m = some "prompts/get" then
      match handlePromptsGet params with
      | .ok r => (st, createResponse rid r)
      | .error e => (st, createErrorResponse rid (-32603) ("Error interno: " ++ e))
    else if m = some "terminal/execute" then
      match handleTerminalExecute fx st params with
      | .ok r => (st, createResponse rid r)
      | .error e => (st, createErrorResponse rid (-32603) ("Error interno: " ++ e))
    else
      (st, createErrorResponse rid (-32601) ("Método no encontrado: " ++ pyStr method))
  | some _ => (st, .crash)


/-! ## Claim theorems -/

/-- A concrete effect environment whose file, directory and evaluation
oracles all fail, used to instantiate universally quantified theorems. -/
def fxA : Effects where
  readFileOp := fun _ => .error "io failure"
  writeOp := fun _ _ _ => .error "io failure"
  listDirOp := fun _ => .error "io failure"
  mkdirOp := fun _ => .error "io failure"
  deleteOp := fun _ => .error "io failure"
  runCmdOp := fun _ _ => .error (.exc "io failure")
  walkOp := fun _ => .error "io failure"
  statOp := fun _ => .error "io failure"
  evalOp := fun _ => .error "name \x27x\x27 is not defined"
  terminalRun := fun _ _ => .ok ("out\n", "", 0)
  nowIso := "2026-10-12T00:00:00"

/-- A concrete effect environment whose oracles all succeed, used to show
that certain responses do not depend on the oracles. -/
def fxB : Effects where
  readFileOp := fun _ => .ok "hello"
  writeOp := fun _ _ _ => .ok ()
  listDirOp := fun _ => .ok (some [])
  mkdirOp := fun _ => .ok ()
  deleteOp := fun _ => .ok (some false)
  runCmdOp := fun _ _ => .ok ("", "", 0)
  walkOp := fun _ => .ok []
  statOp := fun _ => .ok none
  evalOp := fun _ => .ok "4"
  terminalRun := fun _ _ => .ok ("", "", 1)
  nowIso := "2026-01-01T00:00:00"

/-- The tool names the `handle_tools_call` dispatch chain recognises
(the registry minus `terminal_execute`). -/
def dispatchedToolNames : List String :=
  ["read_file", "write_file", "list_files", "create_directory", "delete_path",
   "run_command", "search_files", "file_info", "calculator", "datetime"]

/-- The string `sub` occurs verbatim as a substring of `hay`. -/
def containsStr (hay sub : String) : Prop := ∃ a b, hay = a ++ sub ++ b

-- C1 counterexample

/-- The constant result document of a successful `handle_initialize`. -/
def initializeResultJson : Json :=
  .obj [("protocolVersion", .str MCP_VERSION),
        ("capabilities", capabilitiesJson),
        ("serverInfo", .obj [("name", .str "VS Code MCP Server"),
                             ("version", .str "1.0.0")]),
        ("instructions", .str "Servidor MCP para manipulación de archivos y terminal en VS Code")]

/-- The single-message result shape built by `handle_prompts_get`. -/
def promptMessage (desc text : String) : Json :=
  .obj [("description", .str desc),
        ("messages", .arr
          [.obj [("role", .str "user"),
                 ("content", .obj [("type", .str "text"), ("text", .str text)])]])]

/-- The empty pattern is a substring of every string (`"" in s` is `True`). -/
lemma strIn_nil (s : String) : strIn "" s = true := by
  simp [strIn]

/-- Computation fact used to reduce truthiness of the empty string. -/
lemma emptyStr_isEmpty : "".isEmpty = true := rfl

/-- Helper: for every dispatched tool, `handle_tools_call` with an empty
argument mapping returns normally (no exception escapes), whatever the
oracles do. -/
lemma toolsCall_empty_args_ok (fx : Effects) (st : ServerState) (name : String)
    (h : name ∈ dispatchedToolNames) :
    ∃ r, handleToolsCall fx st (.obj [("name", .str name), ("arguments", .obj [])]) = .ok r := by
  simp [dispatchedToolNames] at h
  rcases h with rfl | rfl | rfl | rfl | rfl | rfl | rfl | rfl | rfl | rfl
  · cases h : fx.readFileOp (resolvePath st.workspaceRoot "") <;>
      simp [handleToolsCall, toolReadFile, jget, asStr, pyGetD, asStrE,
        bind, Except.bind, pure, Except.pure, h]
  · cases h : fx.writeOp (resolvePath st.workspaceRoot "") (.str "") false <;>
      simp [handleToolsCall, toolWriteFile, jget, asStr, pyGetD, asStrE,
        pyTruthy, bind, Except.bind, pure, Except.pure, h]
  · match h : fx.listDirOp st.workspaceRoot with
    | .ok none | .ok (some _) | .error _ =>
      simp [handleToolsCall, toolListFiles, jget, asStr, pyGetD,
        asStrE, pyTruthy, bind, Except.bind, pure, Except.pure, emptyStr_isEmpty, h]
  · cases h : fx.mkdirOp (resolvePath st.workspaceRoot "") <;>
      simp [handleToolsCall, toolCreateDirectory, jget, asStr, pyGetD, asStrE,
        bind, Except.bind, pure, Except.pure, h]
  · match h : fx.deleteOp (resolvePath st.workspaceRoot "") with
    | .ok none | .ok (some true) | .ok (some false) | .error _ =>
      simp [handleToolsCall, toolDeletePath, jget, asStr, pyGetD,
        asStrE, bind, Except.bind, pure, Except.pure, h]
  · match h : fx.runCmdOp (.str "") st.workspaceRoot with
    | .ok (_, _, _) | .error .timeout | .error (.exc _) =>
      simp [handleToolsCall, toolRunCommand, jget, asStr,
        pyGetD, asStrE, pyTruthy, bind, Except.bind, pure, Except.pure, emptyStr_isEmpty, h]
  · match h : fx.walkOp st.workspaceRoot with
    | .ok pairs =>
      cases pairs <;>
        simp [handleToolsCall, toolSearchFiles, jget, asStr, pyGetD, asStrE,
          pyTruthy, bind, Except.bind, pure, Except.pure, emptyStr_isEmpty, strIn_nil, h]
    | .error _ =>
      simp [handleToolsCall, toolSearchFiles, jget, asStr, pyGetD,
        asStrE, pyTruthy, bind, Except.bind, pure, Except.pure, emptyStr_isEmpty, h]
  · match h : fx.statOp (resolvePath st.workspaceRoot "") with
    | .ok none | .ok (some _) | .error _ =>
      simp [handleToolsCall, toolFileInfo, jget, asStr, pyGetD,
        asStrE, bind, Except.bind, pure, Except.pure, h]
  · simp [handleToolsCall, toolCalculator, jget, asStr]
  · simp [handleToolsCall, toolDatetime, jget, asStr]

/-- Helper: a normally returning `handle_tools_call` is wrapped by
`handle_request` into a successful result response. -/
lemma handleRequest_toolsCall_ok (fx : Effects) (st : ServerState) (i : Int) (name : String)
    (r : Json) (hst : st.initialized = true)
    (h : handleToolsCall fx st (.obj [("name", .str name), ("arguments", .obj [])]) = .ok r) :
    handleRequest fx st
      (some (.obj [("method", .str "tools/call"), ("id", .num i),
                   ("params", .obj [("name", .str name), ("arguments", .obj [])])]))
      = (st, .result (.num i) r) := by
  simp [handleRequest, jget, asStr, hst, h, createResponse]

-- C2 counterexample

/-- Claim C1, counterexample: an `initialize` request with protocolVersion
"1.0" on a fresh session is answered with error code -32603 (the raised
exception is caught by the generic handler), not -32602 as claimed; the
state is unchanged. -/
theorem C1_counterexample :
    handleRequest fxA (initialState "/ws")
      (some (.obj [("method", .str "initialize"), ("id", .num 1),
                   ("params", .obj [("protocolVersion", .str "1.0")])]))
      = (initialState "/ws",
         .error (.num 1) (-32603) "Error interno: Versión de protocolo no soportada: 1.0")
    ∧ (-32603 : Int) ≠ -32602 := by
  constructor
  · rfl
  · decide

-- C1 amended

/-- Claim C1, amended: for every params value of `protocolVersion` different
from the supported string "2024-11-05", `initialize` yields an RPC error
with code -32603 (InternalError, message "Error interno: Versión de
protocolo no soportada: ...") and the session state is unchanged, so the
initialized flag stays false. -/
theorem C1_amended (fx : Effects) (st : ServerState) (i : Int) (pv : Json)
    (h : pv ≠ .str "2024-11-05") :
    handleRequest fx st
      (some (.obj [("method", .str "initialize"), ("id", .num i),
                   ("params", .obj [("protocolVersion", pv)])]))
      = (st, .error (.num i) (-32603)
          ("Error interno: Versión de protocolo no soportada: " ++ pyStr pv)) := by
  cases pv with
  | bool b =>
    cases b <;>
      simp_all [handleRequest, handleInitialize, jget, asStr, pyStrOpt, pyStr,
        MCP_VERSION, createErrorResponse, ← String.append_assoc]
  | _ =>
    simp_all [handleRequest, handleInitialize, jget, asStr, pyStrOpt, pyStr,
      MCP_VERSION, createErrorResponse, ← String.append_assoc]

/-- Witness for the amended claim C1 at protocolVersion "1.0". -/
theorem C1_amended_witness :
    handleRequest fxA (initialState "/") (some (.obj [("method", .str "initialize"), ("id", .num 1),
      ("params", .obj [("protocolVersion", .str "1.0")])]))
    = (initialState "/", .error (.num 1) (-32603)
        ("Error interno: Versión de protocolo no soportada: " ++ pyStr (.str "1.0"))) :=
  C1_amended fxA (initialState "/") 1 (.str "1.0") (by simp)

-- C3

/-- Claim C2, counterexample: `tools/call` of `calculator` (whose schema
flags `expression` as required) with an empty argument mapping is answered
with a successful result whose text reports the `KeyError`, and with no RPC
error object at all, hence not with -32602. -/
theorem C2_counterexample :
    handleRequest fxA { initialized := true, workspaceRoot := "/ws" }
      (some (.obj [("method", .str "tools/call"), ("id", .num 7),
                   ("params", .obj [("name", .str "calculator"), ("arguments", .obj [])])]))
      = ({ initialized := true, workspaceRoot := "/ws" },
         .result (.num 7) (textContent "Error de cálculo: \x27expression\x27"))
    ∧ errCode (handleRequest fxA { initialized := true, workspaceRoot := "/ws" }
        (some (.obj [("method", .str "tools/call"), ("id", .num 7),
                     ("params", .obj [("name", .str "calculator"),
                                      ("arguments", .obj [])])]))).2 = none :=
  ⟨rfl, rfl⟩

-- C2 amended

/-- Claim C2, amended: a `tools/call` naming a dispatched tool with an empty
argument mapping is never rejected with -32602: the request reaches the tool
handler and is answered with a successful result; for `calculator` the text
reports the missing key and the eval executor is not invoked (the response
is identical for every effect environment). -/
theorem C2_amended (fx fx' : Effects) (st : ServerState) (i : Int) (name : String)
    (hst : st.initialized = true) (hname : name ∈ dispatchedToolNames) :
    (∃ body, handleRequest fx st
        (some (.obj [("method", .str "tools/call"), ("id", .num i),
                     ("params", .obj [("name", .str name), ("arguments", .obj [])])]))
        = (st, .result (.num i) body))
    ∧ handleRequest fx st
        (some (.obj [("method", .str "tools/call"), ("id", .num i),
                     ("params", .obj [("name", .str "calculator"), ("arguments", .obj [])])]))
      = (st, .result (.num i) (textContent "Error de cálculo: \x27expression\x27"))
    ∧ handleRequest fx st
        (some (.obj [("method", .str "tools/call"), ("id", .num i),
                     ("params", .obj [("name", .str "calculator"), ("arguments", .obj [])])]))
      = handleRequest fx' st
        (some (.obj [("method", .str "tools/call"), ("id", .num i),
                     ("params", .obj [("name", .str "calculator"), ("arguments", .obj [])])])) := by
  refine ⟨?_, ?_, ?_⟩
  · obtain ⟨r, hr⟩ := toolsCall_empty_args_ok fx st name hname
    exact ⟨r, handleRequest_toolsCall_ok fx st i name r hst hr⟩
  · simp [handleRequest, handleToolsCall, toolCalculator, jget, asStr, hst, createResponse]
  · simp [handleRequest, handleToolsCall, toolCalculator, jget, asStr, hst, createResponse]

/-- Witness for the amended claim C2 at tool `read_file` and effect
environments `fxA`, `fxB`. -/
theorem C2_amended_witness :
    (∃ body, handleRequest fxA { initialized := true, workspaceRoot := "/ws" }
        (some (.obj [("method", .str "tools/call"), ("id", .num 11),
                     ("params", .obj [("name", .str "read_file"), ("arguments", .obj [])])]))
        = ({ initialized := true, workspaceRoot := "/ws" }, .result (.num 11) body))
    ∧ handleRequest fxA { initialized := true, workspaceRoot := "/ws" }
        (some (.obj [("method", .str "tools/call"), ("id", .num 11),
                     ("params", .obj [("name", .str "calculator"), ("arguments", .obj [])])]))
      = ({ initialized := true, workspaceRoot := "/ws" },
         .result (.num 11) (textContent "Error de cálculo: \x27expression\x27"))
    ∧ handleRequest fxA { initialized := true, workspaceRoot := "/ws" }
        (some (.obj [("method", .str "tools/call"), ("id", .num 11),
                     ("params", .obj [("name", .str "calculator"), ("arguments", .obj [])])]))
      = handleRequest fxB { initialized := true, workspaceRoot := "/ws" }
        (some (.obj [("method", .str "tools/call"), ("id", .num 11),
                     ("params", .obj [("name", .str "calculator"), ("arguments", .obj [])])])) :=
  C2_amended fxA fxB _ 11 "read_file" rfl (by decide)

/-- Claim C3, counterexample: a frame that is not valid JSON produces the
empty response (nothing is written back): no error object with code -32700
is delivered and the connection is not closed. -/
theorem C3_counterexample :
    handleRequest fxA (initialState "/ws") none = (initialState "/ws", Response.empty)
    ∧ errCode (handleRequest fxA (initialState "/ws") none).2 = none
    ∧ closesConnection (handleRequest fxA (initialState "/ws") none).2 = false :=
  ⟨rfl, rfl, rfl⟩

/-- Claim C3, amended: for every line that is not valid JSON the server
constructs the -32700 error with a null id, which `_create_error_response`
suppresses, so no response at all is produced and the state is unchanged. -/
theorem C3_amended (fx : Effects) (st : ServerState) :
    handleRequest fx st none = (st, Response.empty) := rfl

-- C4

/-- Claim C4, counterexample: the method `initialized` (which differs from
`initialize`) processed while the session is uninitialized is not answered
with -32002; it is answered with a result and flips the initialized flag,
a side effect on the session state. -/
theorem C4_counterexample :
    (initialState "/ws").initialized = false
    ∧ handleRequest fxA (initialState "/ws")
        (some (.obj [("method", .str "initialized"), ("id", .num 5)]))
      = ({ initialized := true, workspaceRoot := "/ws" }, .result (.num 5) .null)
    ∧ errCode (handleRequest fxA (initialState "/ws")
        (some (.obj [("method", .str "initialized"), ("id", .num 5)]))).2 = none :=
  ⟨rfl, rfl, rfl⟩

/-- Claim C4, amended: for every method other than `initialize` and
`initialized`, a request with a non-null id received while the initialized
flag is false is answered with error -32002 ("Servidor no inicializado")
and the session state is unchanged. -/
theorem C4_amended (fx : Effects) (st : ServerState) (m params : Json) (i : Int)
    (h1 : st.initialized = false)
    (h2 : asStr m ≠ some "initialize") (h3 : asStr m ≠ some "initialized") :
    handleRequest fx st (some (.obj [("method", m), ("id", .num i), ("params", params)]))
      = (st, .error (.num i) (-32002) "Servidor no inicializado") := by
  simp [handleRequest, jget, h1, h2, h3, createErrorResponse]

/-- Witness for the amended claim C4 at method `tools/list`. -/
theorem C4_amended_witness :
    handleRequest fxA (initialState "/ws")
      (some (.obj [("method", .str "tools/list"), ("id", .num 2), ("params", .obj [])]))
      = (initialState "/ws", .error (.num 2) (-32002) "Servidor no inicializado") :=
  C4_amended fxA (initialState "/ws") (.str "tools/list") (.obj []) 2 rfl
    (by simp [asStr]) (by simp [asStr])

-- C10

/-- Claim C5: in the Ready state, `tools/call` with a name matching no
registered tool descriptor is answered with a successful RPC result (not an
error object) whose content text identifies the name as not found
("Herramienta no encontrada: ..."). -/
theorem C5_unknown_tool (fx : Effects) (st : ServerState) (i : Int) (name : String)
    (hst : st.initialized = true) (hname : name ∉ setupTools.map Prod.fst) :
    handleRequest fx st
      (some (.obj [("method", .str "tools/call"), ("id", .num i),
                   ("params", .obj [("name", .str name), ("arguments", .obj [])])]))
      = (st, .result (.num i) (textContent ("Herramienta no encontrada: " ++ name))) := by
  simp [setupTools, toolDesc] at hname
  push_neg at hname
  obtain ⟨n1, n2, n3, n4, n5, n6, n7, n8, n9, n10, n11⟩ := hname
  simp [handleRequest, handleToolsCall, jget, asStr, hst, pyStrOpt, pyStr,
    n1, n2, n3, n4, n5, n6, n7, n8, n9, n10, n11, createResponse]

/-- Witness for claim C5 at the unregistered name "foo". -/
theorem C5_unknown_tool_witness :
    handleRequest fxA { initialized := true, workspaceRoot := "/ws" }
      (some (.obj [("method", .str "tools/call"), ("id", .num 6),
                   ("params", .obj [("name", .str "foo"), ("arguments", .obj [])])]))
      = ({ initialized := true, workspaceRoot := "/ws" },
         .result (.num 6) (textContent ("Herramienta no encontrada: " ++ "foo"))) :=
  C5_unknown_tool fxA _ 6 "foo" rfl (by decide)

-- C6

/-- Claim C6: when the execution oracle of a named, existing tool fails
(here `read_file` and `calculator`, with arbitrary failure messages), the
failure is not surfaced as an RPC error object: the response is a normal
successful result whose content text describes the failure. -/
theorem C6_tool_failure_is_result (fx : Effects) (st : ServerState) (i j : Int)
    (p expr eR eE : String) (hst : st.initialized = true)
    (hrf : fx.readFileOp (resolvePath st.workspaceRoot p) = .error eR)
    (hev : fx.evalOp (.str expr) = .error eE) :
    handleRequest fx st
      (some (.obj [("method", .str "tools/call"), ("id", .num i),
                   ("params", .obj [("name", .str "read_file"),
                                    ("arguments", .obj [("path", .str p)])])]))
      = (st, .result (.num i)
          (textContent ("Error leyendo archivo " ++ resolvePath st.workspaceRoot p ++ ": " ++ eR)))
    ∧ handleRequest fx st
      (some (.obj [("method", .str "tools/call"), ("id", .num j),
                   ("params", .obj [("name", .str "calculator"),
                                    ("arguments", .obj [("expression", .str expr)])])]))
      = (st, .result (.num j) (textContent ("Error de cálculo: " ++ eE))) := by
  constructor
  · simp [handleRequest, handleToolsCall, toolReadFile, jget, asStr, hst, hrf,
      pyGetD, asStrE, createResponse, bind, Except.bind, pure, Except.pure]
  · simp [handleRequest, handleToolsCall, toolCalculator, jget, asStr, hst, hev,
      createResponse]

/-- Witness for claim C6 with failing read and eval oracles (`fxA`). -/
theorem C6_witness :
    handleRequest fxA { initialized := true, workspaceRoot := "/ws" }
      (some (.obj [("method", .str "tools/call"), ("id", .num 1),
                   ("params", .obj [("name", .str "read_file"),
                                    ("arguments", .obj [("path", .str "a.txt")])])]))
      = ({ initialized := true, workspaceRoot := "/ws" }, .result (.num 1)
          (textContent ("Error leyendo archivo " ++ resolvePath "/ws" "a.txt" ++ ": " ++ "io failure")))
    ∧ handleRequest fxA { initialized := true, workspaceRoot := "/ws" }
      (some (.obj [("method", .str "tools/call"), ("id", .num 2),
                   ("params", .obj [("name", .str "calculator"),
                                    ("arguments", .obj [("expression", .str "x+1")])])]))
      = ({ initialized := true, workspaceRoot := "/ws" }, .result (.num 2)
          (textContent ("Error de cálculo: " ++ "name \x27x\x27 is not defined"))) :=
  C6_tool_failure_is_result fxA _ 1 2 "a.txt" "x+1" "io failure" "name \x27x\x27 is not defined"
    rfl rfl rfl

-- C9

/-- Claim C7: a valid `initialize` leaves the state unchanged and returns
the constant capability snapshot, `initialized` moves the session to Ready,
and in Ready every `tools/list` call returns exactly the descriptors fixed
by `_setup_tools` at construction, in registration order, with the state
unchanged, hence identically on every call. -/
theorem C7_tools_list_fixed (fx : Effects) (root : String) (i j k : Int) :
    handleRequest fx (initialState root)
      (some (.obj [("method", .str "initialize"), ("id", .num i),
                   ("params", .obj [("protocolVersion", .str "2024-11-05")])]))
      = (initialState root, .result (.num i) initializeResultJson)
    ∧ handleRequest fx (initialState root)
        (some (.obj [("method", .str "initialized"), ("id", .num j)]))
      = ({ initialized := true, workspaceRoot := root }, .result (.num j) .null)
    ∧ handleRequest fx { initialized := true, workspaceRoot := root }
        (some (.obj [("method", .str "tools/list"), ("id", .num k)]))
      = ({ initialized := true, workspaceRoot := root },
         .result (.num k) (.obj [("tools", .arr (setupTools.map Prod.snd))])) :=
  ⟨rfl, rfl, rfl⟩

-- C8

/-- Claim C8: a `prompts/get` of each known prompt with its required
arguments supplied (and the optional framework for `create_test`) is
answered with a message whose rendered text contains every supplied
argument value verbatim as a substring. -/
theorem C8_prompt_roundtrip (fx : Effects) (st : ServerState) (i : Int)
    (lang code fw : String) (hst : st.initialized = true) :
    (∃ t, handleRequest fx st
        (some (.obj [("method", .str "prompts/get"), ("id", .num i),
                     ("params", .obj [("name", .str "code_review"),
                                      ("arguments", .obj [("language", .str lang),
                                                          ("code", .str code)])])]))
        = (st, .result (.num i)
            (promptMessage "Revisión de código con enfoque en calidad" t))
      ∧ containsStr t lang ∧ containsStr t code)
    ∧ (∃ t, handleRequest fx st
        (some (.obj [("method", .str "prompts/get"), ("id", .num i),
                     ("params", .obj [("name", .str "code_explanation"),
                                      ("arguments", .obj [("language", .str lang),
                                                          ("code", .str code)])])]))
        = (st, .result (.num i)
            (promptMessage "Explica el funcionamiento de un código" t))
      ∧ containsStr t lang ∧ containsStr t code)
    ∧ (∃ t, handleRequest fx st
        (some (.obj [("method", .str "prompts/get"), ("id", .num i),
                     ("params", .obj [("name", .str "create_test"),
                                      ("arguments", .obj [("language", .str lang),
                                                          ("code", .str code),
                                                          ("framework", .str fw)])])]))
        = (st, .result (.num i) (promptMessage "Genera tests para un código dado" t))
      ∧ containsStr t lang ∧ containsStr t code ∧ containsStr t fw) := by
  constructor
  · refine ⟨"Revisa este código " ++ lang ++ ":\n\n" ++ code ++
        "\n\nProporciona comentarios sobre calidad, posibles errores y optimizaciones.", ?_,
      ⟨"Revisa este código ", ":\n\n" ++ code ++
        "\n\nProporciona comentarios sobre calidad, posibles errores y optimizaciones.", ?_⟩,
      ⟨"Revisa este código " ++ lang ++ ":\n\n",
        "\n\nProporciona comentarios sobre calidad, posibles errores y optimizaciones.", ?_⟩⟩
    · simp [handleRequest, handlePromptsGet, jget, asStr, hst, pyGetD, pyStr,
        bind, Except.bind, pure, Except.pure, createResponse, promptMessage]
    · simp [String.append_assoc]
    · simp [String.append_assoc]
  constructor
  · refine ⟨"Explica cómo funciona este código " ++ lang ++ ":\n\n" ++ code ++
        "\n\nDescribe el propósito, las funciones principales y cualquier detalle importante.", ?_,
      ⟨"Explica cómo funciona este código ", ":\n\n" ++ code ++
        "\n\nDescribe el propósito, las funciones principales y cualquier detalle importante.", ?_⟩,
      ⟨"Explica cómo funciona este código " ++ lang ++ ":\n\n",
        "\n\nDescribe el propósito, las funciones principales y cualquier detalle importante.", ?_⟩⟩
    · simp [handleRequest, handlePromptsGet, jget, asStr, hst, pyGetD, pyStr,
        bind, Except.bind, pure, Except.pure, createResponse, promptMessage]
    · simp [String.append_assoc]
    · simp [String.append_assoc]
  · refine ⟨"Genera tests usando " ++ fw ++ " para este código " ++ lang ++ ":\n\n" ++ code ++
        "\n\nIncluye casos de prueba para diferentes escenarios.", ?_,
      ⟨"Genera tests usando " ++ fw ++ " para este código ", ":\n\n" ++ code ++
        "\n\nIncluye casos de prueba para diferentes escenarios.", ?_⟩,
      ⟨"Genera tests usando " ++ fw ++ " para este código " ++ lang ++ ":\n\n",
        "\n\nIncluye casos de prueba para diferentes escenarios.", ?_⟩,
      ⟨"Genera tests usando ", " para este código " ++ lang ++ ":\n\n" ++ code ++
        "\n\nIncluye casos de prueba para diferentes escenarios.", ?_⟩⟩
    · simp [handleRequest, handlePromptsGet, jget, asStr, hst, pyGetD, pyStr,
        bind, Except.bind, pure, Except.pure, createResponse, promptMessage]
    · simp [String.append_assoc]
    · simp [String.append_assoc]
    · simp [String.append_assoc]

/-- Witness for claim C8 at language "python", code "print(1)" and
framework "pytest". -/
theorem C8_witness :
    (∃ t, handleRequest fxA { initialized := true, workspaceRoot := "/ws" }
        (some (.obj [("method", .str "prompts/get"), ("id", .num 4),
                     ("params", .obj [("name", .str "code_review"),
                                      ("arguments", .obj [("language", .str "python"),
                                                          ("code", .str "print(1)")])])]))
        = ({ initialized := true, workspaceRoot := "/ws" }, .result (.num 4)
            (promptMessage "Revisión de código con enfoque en calidad" t))
      ∧ containsStr t "python" ∧ containsStr t "print(1)")
    ∧ (∃ t, handleRequest fxA { initialized := true, workspaceRoot := "/ws" }
        (some (.obj [("method", .str "prompts/get"), ("id", .num 4),
                     ("params", .obj [("name", .str "code_explanation"),
                                      ("arguments", .obj [("language", .str "python"),
                                                          ("code", .str "print(1)")])])]))
        = ({ initialized := true, workspaceRoot := "/ws" }, .result (.num 4)
            (promptMessage "Explica el funcionamiento de un código" t))
      ∧ containsStr t "python" ∧ containsStr t "print(1)")
    ∧ (∃ t, handleRequest fxA { initialized := true, workspaceRoot := "/ws" }
        (some (.obj [("method", .str "prompts/get"), ("id", .num 4),
                     ("params", .obj [("name", .str "create_test"),
                                      ("arguments", .obj [("language", .str "python"),
                                                          ("code", .str "print(1)"),
                                                          ("framework", .str "pytest")])])]))
        = ({ initialized := true, workspaceRoot := "/ws" }, .result (.num 4)
            (promptMessage "Genera tests para un código dado" t))
      ∧ containsStr t "python" ∧ containsStr t "print(1)" ∧ containsStr t "pytest") :=
  C8_prompt_roundtrip fxA _ 4 "python" "print(1)" "pytest" rfl

-- C2 helpers

/-- Claim C9: `terminal_execute` is registered in the tool registry, yet
`tools/call` with that name is answered with the not-found content result,
while the top-level method `terminal/execute` does run the command through
the subprocess oracle and reports its output. -/
theorem C9_terminal_execute_split (fx : Effects) (st : ServerState) (i j : Int)
    (c out err : String) (rc : Int) (hst : st.initialized = true) (hc : c ≠ "")
    (hrun : fx.terminalRun (.str c) st.workspaceRoot = .ok (out, err, rc)) :
    "terminal_execute" ∈ setupTools.map Prod.fst
    ∧ handleRequest fx st
        (some (.obj [("method", .str "tools/call"), ("id", .num i),
                     ("params", .obj [("name", .str "terminal_execute"),
                                      ("arguments", .obj [("command", .str c)])])]))
      = (st, .result (.num i) (textContent "Herramienta no encontrada: terminal_execute"))
    ∧ handleRequest fx st
        (some (.obj [("method", .str "terminal/execute"), ("id", .num j),
                     ("params", .obj [("command", .str c)])]))
      = (st, .result (.num j) (textContent ("Comando ejecutado:\n" ++ c ++ "\n\nSalida:\n" ++
          out ++ "\nErrores:\n" ++ err ++ "\nCódigo de retorno: " ++ toString rc))) := by
  refine ⟨by decide, ?_, ?_⟩
  · simp [handleRequest, handleToolsCall, jget, asStr, hst, pyStrOpt, pyStr, createResponse]
  · simp [handleRequest, handleTerminalExecute, jget, asStr, hst, hc, hrun, pyTruthy,
      pyStrOpt, pyStr, createResponse, String.isEmpty_iff]

/-- Witness for claim C9 at the command "ls". -/
theorem C9_witness :
    "terminal_execute" ∈ setupTools.map Prod.fst
    ∧ handleRequest fxA { initialized := true, workspaceRoot := "/ws" }
        (some (.obj [("method", .str "tools/call"), ("id", .num 1),
                     ("params", .obj [("name", .str "terminal_execute"),
                                      ("arguments", .obj [("command", .str "ls")])])]))
      = ({ initialized := true, workspaceRoot := "/ws" },
         .result (.num 1) (textContent "Herramienta no encontrada: terminal_execute"))
    ∧ handleRequest fxA { initialized := true, workspaceRoot := "/ws" }
        (some (.obj [("method", .str "terminal/execute"), ("id", .num 2),
                     ("params", .obj [("command", .str "ls")])]))
      = ({ initialized := true, workspaceRoot := "/ws" },
         .result (.num 2) (textContent ("Comando ejecutado:\n" ++ "ls" ++ "\n\nSalida:\n" ++
           "out\n" ++ "\nErrores:\n" ++ "" ++ "\nCódigo de retorno: " ++ toString (0 : Int)))) :=
  C9_terminal_execute_split fxA _ 1 2 "ls" "out\n" "" 0 rfl (by decide) rfl

-- C7

/-- Claim C10: an `initialized` message received while the session is still
uninitialized sets the initialized flag to true and moves the session to
Ready, so Ready is reachable without any prior `initialize`. -/
theorem C10_initialized_skips_handshake (fx : Effects) (st : ServerState) (i : Int)
    (_h : st.initialized = false) :
    handleRequest fx st (some (.obj [("method", .str "initialized"), ("id", .num i)]))
      = ({ st with initialized := true }, .result (.num i) .null)
    ∧ ({ st with initialized := true }).initialized = true := by
  constructor
  · simp [handleRequest, jget, asStr, createResponse]
  · rfl

/-- Witness for claim C10 from the fresh initial state. -/
theorem C10_witness :
    handleRequest fxA (initialState "/ws")
      (some (.obj [("method", .str "initialized"), ("id", .num 3)]))
      = ({ initialState "/ws" with initialized := true }, .result (.num 3) .null)
    ∧ ({ initialState "/ws" with initialized := true }).initialized = true :=
  C10_initialized_skips_handshake fxA (initialState "/ws") 3 rfl

-- C5

end MCP
